import Mathlib

/-!
Verification of the usable-excel host bridge and credential refresh logic.

The development shallowly embeds three source modules:

* `src/taskpane/lib/excel-tools.ts` — the tool dispatch table and the
  in-flight call deduplication layer (`handleExcelToolCall`).  Promises are
  modelled by identifiers allocated from a counter; the handler side effect
  is recorded in an execution log, so "the handler executed exactly once"
  is a statement about that log.
* the `useAuth` hook — token exchange (`exchangeRefreshToken`),
  `refreshAccessToken`, the mount-time restore effect, `scheduleRefresh`,
  the login dialog AUTH_SUCCESS handler, and `logout`.  The browser timer
  system is modelled explicitly: a list of live timers `(id, delayMs)`
  plus the hook's single timer ref; `setTimeout` allocates a fresh id,
  `clearTimeout` removes an id from the live list.  The network is a
  parameter mapping a refresh token to one of: a rejected fetch
  (`netError`, which in the source propagates as an exception), a non-ok
  response, or an ok response body.
* the `useChatEmbed` hook — the `onReady` callback and the auth re-send
  effect, modelled as an event step function emitting outbound messages.
-/

namespace UsableExcel

/-! ## Tool layer (`excel-tools.ts`) -/

/-- The names of the registered Excel tools, in source order: the keys of
`handlerMap`, built from the `tools` array. -/
def handlerNames : List String :=
  ["get_workbook_info", "get_active_sheet", "read_range", "read_selected_range",
   "get_used_range", "write_range", "set_cell_value", "clear_range",
   "apply_formula", "format_range", "autofit_columns", "create_sheet",
   "rename_sheet", "delete_sheet", "activate_sheet", "manage_rows",
   "create_table", "sort_range", "add_chart"]

/-- State of the deduplication layer.  `inFlight` is the `inFlightCalls`
map (key to promise identifier), `nextPromise` allocates fresh promise
identifiers, and `execLog` records, in order, the keys whose handler was
actually invoked (each `handler(args)` call appends one entry). -/
structure ToolState where
  inFlight : List (String × Nat)
  nextPromise : Nat
  execLog : List String
deriving Repr, DecidableEq

/-- Lookup in the in-flight map, as `inFlightCalls.get(key)`. -/
def lookupKey (k : String) (l : List (String × Nat)) : Option Nat :=
  (l.find? (fun e => e.1 == k)).map Prod.snd

/-- The deduplication key: `` `${toolName}:${JSON.stringify(args)}` ``.
`argsJson` stands for the already-serialized arguments. -/
def callKey (toolName argsJson : String) : String :=
  toolName ++ ":" ++ argsJson

/-- Result of `handleExcelToolCall`: the promise returned to the caller,
or the thrown `Unknown Excel tool` error. -/
inductive CallResult
  | promise (id : Nat)
  | unknownTool
deriving Repr, DecidableEq

/-- `handleExcelToolCall(toolName, args)`: reject unknown tools; otherwise,
if an identical call is in flight return its promise, else invoke the
handler (logged in `execLog`), store the fresh promise under the key, and
return it. -/
def handleExcelToolCall (toolName argsJson : String) (s : ToolState) :
    ToolState × CallResult :=
  if toolName ∈ handlerNames then
    let key := callKey toolName argsJson
    match lookupKey key s.inFlight with
    | some p => (s, .promise p)
    | none =>
        let p := s.nextPromise
        ({ inFlight := (key, p) :: s.inFlight,
           nextPromise := p + 1,
           execLog := s.execLog ++ [key] }, .promise p)
  else (s, .unknownTool)

/-- Settlement of the promise stored under `key`: both the fulfillment
branch and the rejection branch run `inFlightCalls.delete(key)`; the
`success` flag records which branch ran and the deletion does not depend
on it. -/
def settleCall (_success : Bool) (key : String) (s : ToolState) : ToolState :=
  { s with inFlight := s.inFlight.filter (fun e => e.1 != key) }

/-- Keys of the in-flight map are pairwise distinct (the JS `Map`
invariant). -/
def KeysNodup (s : ToolState) : Prop :=
  (s.inFlight.map Prod.fst).Nodup

theorem lookupKey_cons_self (k : String) (p : Nat) (l : List (String × Nat)) :
    lookupKey k ((k, p) :: l) = some p := by
  simp [lookupKey, List.find?]

theorem lookupKey_filter_ne (k : String) (l : List (String × Nat)) :
    lookupKey k (l.filter (fun e => e.1 != k)) = none := by
  unfold lookupKey
  rw [List.find?_eq_none.mpr, Option.map_none']
  intro x hx
  rcases List.mem_filter.mp hx with ⟨_, hne⟩
  simpa using hne

theorem lookupKey_eq_none_iff (k : String) (l : List (String × Nat)) :
    lookupKey k l = none ↔ k ∉ l.map Prod.fst := by
  unfold lookupKey
  constructor
  · intro h hk
    rcases List.mem_map.mp hk with ⟨e, he, hfst⟩
    rcases Option.map_eq_none'.mp h with hfind
    have := List.find?_eq_none.mp hfind e he
    simp [hfst] at this
  · intro h
    rw [List.find?_eq_none.mpr, Option.map_none']
    intro e he hbeq
    exact h (List.mem_map.mpr ⟨e, he, by simpa using hbeq⟩)

theorem keysNodup_handle (toolName argsJson : String) (s : ToolState)
    (h : KeysNodup s) :
    KeysNodup (handleExcelToolCall toolName argsJson s).1 := by
  unfold handleExcelToolCall
  by_cases htool : toolName ∈ handlerNames
  · simp only [htool, if_true]
    cases hlk : lookupKey (callKey toolName argsJson) s.inFlight with
    | some p => simpa using h
    | none =>
        simp only []
        unfold KeysNodup at h ⊢
        simp only [List.map_cons]
        exact List.nodup_cons.mpr ⟨(lookupKey_eq_none_iff _ _).mp hlk, h⟩
  · simpa [htool] using h

theorem keysNodup_settle (b : Bool) (key : String) (s : ToolState)
    (h : KeysNodup s) :
    KeysNodup (settleCall b key s) := by
  unfold KeysNodup at h ⊢
  unfold settleCall
  exact h.sublist ((s.inFlight.filter_sublist).map Prod.fst)

/-- C1: if `handleExcelToolCall` is invoked a second time with an identical
`(toolName, serialized args)` pair while the first invocation's handler is
still pending, the underlying handler executes exactly once (the execution
log grows by exactly one entry over the two calls, during the first) and
both invocations return the very same pending promise, so both callers
observe the same result or the same error. -/
theorem handleExcelToolCall_dedups_pending (toolName argsJson : String)
    (s : ToolState)
    (hTool : toolName ∈ handlerNames)
    (hAbsent : lookupKey (callKey toolName argsJson) s.inFlight = none) :
    (handleExcelToolCall toolName argsJson
        (handleExcelToolCall toolName argsJson s).1).2
      = (handleExcelToolCall toolName argsJson s).2 ∧
    (handleExcelToolCall toolName argsJson s).1.execLog
      = s.execLog ++ [callKey toolName argsJson] ∧
    (handleExcelToolCall toolName argsJson
        (handleExcelToolCall toolName argsJson s).1).1.execLog
      = (handleExcelToolCall toolName argsJson s).1.execLog := by
  unfold handleExcelToolCall
  simp only [hTool, if_true, hAbsent]
  simp [lookupKey_cons_self]

/-- Witness for C1: two racing `add_chart` calls with identical serialized
arguments, starting from an empty in-flight table, return the same promise
and the handler runs once. -/
theorem handleExcelToolCall_dedups_pending_witness :
    (handleExcelToolCall "add_chart" "\x7b\x7d"
        (handleExcelToolCall "add_chart" "\x7b\x7d"
          ⟨[], 0, []⟩).1).2
      = (handleExcelToolCall "add_chart" "\x7b\x7d" ⟨[], 0, []⟩).2 ∧
    (handleExcelToolCall "add_chart" "\x7b\x7d" ⟨[], 0, []⟩).1.execLog
      = [] ++ [callKey "add_chart" "\x7b\x7d"] ∧
    (handleExcelToolCall "add_chart" "\x7b\x7d"
        (handleExcelToolCall "add_chart" "\x7b\x7d"
          ⟨[], 0, []⟩).1).1.execLog
      = (handleExcelToolCall "add_chart" "\x7b\x7d" ⟨[], 0, []⟩).1.execLog :=
  handleExcelToolCall_dedups_pending "add_chart" "\x7b\x7d" ⟨[], 0, []⟩
    (by decide) (by decide)

/-- C2: the in-flight entry for a key is removed the instant its promise
settles, identically for success and failure; a call with the same key
issued after settlement executes the handler again (it is not
deduplicated); and the table keeps at most one live entry per key (key
uniqueness is preserved by dispatch and settlement). -/
theorem settleCall_removes_entry (toolName argsJson : String) (b : Bool)
    (s : ToolState)
    (hTool : toolName ∈ handlerNames)
    (hNd : KeysNodup s) :
    lookupKey (callKey toolName argsJson)
        (settleCall b (callKey toolName argsJson) s).inFlight = none ∧
    settleCall b (callKey toolName argsJson) s
      = settleCall (!b) (callKey toolName argsJson) s ∧
    (handleExcelToolCall toolName argsJson
        (settleCall b (callKey toolName argsJson) s)).1.execLog
      = (settleCall b (callKey toolName argsJson) s).execLog
          ++ [callKey toolName argsJson] ∧
    KeysNodup (handleExcelToolCall toolName argsJson s).1 ∧
    KeysNodup (settleCall b (callKey toolName argsJson) s) := by
  refine ⟨lookupKey_filter_ne _ _, rfl, ?_, keysNodup_handle _ _ _ hNd,
    keysNodup_settle _ _ _ hNd⟩
  unfold handleExcelToolCall settleCall
  simp only [hTool, if_true, lookupKey_filter_ne]

/-- Witness for C2: after the pending `add_chart` call settles (with
failure), the entry is gone and a repeat of the same call executes the
handler a second time. -/
theorem settleCall_removes_entry_witness :
    lookupKey (callKey "add_chart" "\x7b\x7d")
        (settleCall false (callKey "add_chart" "\x7b\x7d")
          ⟨[(callKey "add_chart" "\x7b\x7d", 0)], 1,
            [callKey "add_chart" "\x7b\x7d"]⟩).inFlight = none ∧
    settleCall false (callKey "add_chart" "\x7b\x7d")
        ⟨[(callKey "add_chart" "\x7b\x7d", 0)], 1,
          [callKey "add_chart" "\x7b\x7d"]⟩
      = settleCall (!false) (callKey "add_chart" "\x7b\x7d")
        ⟨[(callKey "add_chart" "\x7b\x7d", 0)], 1,
          [callKey "add_chart" "\x7b\x7d"]⟩ ∧
    (handleExcelToolCall "add_chart" "\x7b\x7d"
        (settleCall false (callKey "add_chart" "\x7b\x7d")
          ⟨[(callKey "add_chart" "\x7b\x7d", 0)], 1,
            [callKey "add_chart" "\x7b\x7d"]⟩)).1.execLog
      = (settleCall false (callKey "add_chart" "\x7b\x7d")
          ⟨[(callKey "add_chart" "\x7b\x7d", 0)], 1,
            [callKey "add_chart" "\x7b\x7d"]⟩).execLog
          ++ [callKey "add_chart" "\x7b\x7d"] ∧
    KeysNodup (handleExcelToolCall "add_chart" "\x7b\x7d"
        ⟨[(callKey "add_chart" "\x7b\x7d", 0)], 1,
          [callKey "add_chart" "\x7b\x7d"]⟩).1 ∧
    KeysNodup (settleCall false (callKey "add_chart" "\x7b\x7d")
        ⟨[(callKey "add_chart" "\x7b\x7d", 0)], 1,
          [callKey "add_chart" "\x7b\x7d"]⟩) :=
  settleCall_removes_entry "add_chart" "\x7b\x7d" false
    ⟨[(callKey "add_chart" "\x7b\x7d", 0)], 1,
      [callKey "add_chart" "\x7b\x7d"]⟩
    (by decide) (by unfold KeysNodup; decide)

/-! ## Auth hook (`useAuth`) -/

/-- The externally observable session state of `useAuth`. -/
inductive AuthState
  | restoring
  | unauthenticated
  | authenticated
deriving Repr, DecidableEq

/-- State owned by one `useAuth` instance together with the browser timer
system.  `liveTimers` lists the currently armed timeouts as
`(id, delayMs)`; `refreshTimerRef` is the hook's `refreshTimerRef.current`;
`nextTimerId` allocates fresh timeout ids.  `storedRefreshToken` is the
`localStorage` slot under `RT_KEY`. -/
structure AuthS where
  state : AuthState
  accessToken : Option String
  storedRefreshToken : Option String
  liveTimers : List (Nat × Int)
  refreshTimerRef : Option Nat
  nextTimerId : Nat
deriving Repr, DecidableEq

/-- `clearTimeout(r)`: the timeout with id `r` is removed from the live
set and can never fire afterwards. -/
def clearTimeout (r : Nat) (l : List (Nat × Int)) : List (Nat × Int) :=
  l.filter (fun t => t.1 != r)

/-- The delay computed by `scheduleRefresh`:
`Math.max((expiresIn - 30) * 1000, 10_000)` milliseconds. -/
def delayMs (expiresIn : Int) : Int :=
  max ((expiresIn - 30) * 1000) 10000

/-- `scheduleRefresh(expiresIn, doRefresh)`: clear the previously armed
timeout held in `refreshTimerRef` (if any), then arm a fresh one-shot
timeout for `delayMs expiresIn` and store its id in the ref. -/
def scheduleRefresh (expiresIn : Int) (s : AuthS) : AuthS :=
  let cleared :=
    match s.refreshTimerRef with
    | some r => clearTimeout r s.liveTimers
    | none => s.liveTimers
  { s with
      liveTimers := cleared ++ [(s.nextTimerId, delayMs expiresIn)],
      refreshTimerRef := some s.nextTimerId,
      nextTimerId := s.nextTimerId + 1 }

/-- Parsed body of a successful token endpoint response
(`access_token`, optional `refresh_token`, optional `expires_in`). -/
structure TokenResponse where
  access_token : String
  refresh_token : Option String
  expires_in : Option Int
deriving Repr, DecidableEq

/-- Outcome of the `fetch` to the token endpoint: the promise rejects
(`netError`, e.g. network unreachable), or resolves with `res.ok` false
(`notOk`), or resolves ok with a parsed body. -/
inductive NetOutcome
  | netError
  | notOk
  | ok (body : TokenResponse)
deriving Repr, DecidableEq

/-- The value `exchangeRefreshToken` resolves with on the ok path. -/
structure ExchangeResult where
  accessToken : String
  refreshToken : Option String
  expiresIn : Int
deriving Repr, DecidableEq

/-- `exchangeRefreshToken(rt)`: `.error` models the rejected promise when
`fetch` throws; `.ok none` is the `!res.ok` early return; `.ok (some _)`
maps the body with `refresh_token ?? null` and `expires_in ?? 300`.  The
network is the parameter `net`. -/
def exchangeRefreshToken (net : String → NetOutcome) (rt : String) :
    Except Unit (Option ExchangeResult) :=
  match net rt with
  | .netError => .error ()
  | .notOk => .ok none
  | .ok body =>
      .ok (some { accessToken := body.access_token,
                  refreshToken := body.refresh_token,
                  expiresIn := body.expires_in.getD 300 })

/-- How a call to `refreshAccessToken` finishes: the returned promise
resolves with `tok` (`returned`), or rejects because the exchange threw
(`threw`). -/
inductive RefreshOutcome
  | returned (tok : Option String)
  | threw
deriving Repr, DecidableEq

/-- `refreshAccessToken()`: return `null` when no refresh token is stored;
propagate a thrown exchange unchanged; on a non-ok response clear the
stored refresh token and return `null` without touching the session state;
on success set the access token, set state `authenticated`, persist a
rotated refresh token when present, re-arm the scheduler with the returned
lifetime, and return the new access token. -/
def refreshAccessToken (net : String → NetOutcome) (s : AuthS) :
    AuthS × RefreshOutcome :=
  match s.storedRefreshToken with
  | none => (s, .returned none)
  | some rt =>
      match exchangeRefreshToken net rt with
      | .error _ => (s, .threw)
      | .ok none => ({ s with storedRefreshToken := none }, .returned none)
      | .ok (some result) =>
          let s1 := { s with
                        accessToken := some result.accessToken,
                        state := .authenticated }
          let s2 :=
            match result.refreshToken with
            | some nrt => { s1 with storedRefreshToken := some nrt }
            | none => s1
          (scheduleRefresh result.expiresIn s2,
            .returned (some result.accessToken))

/-- The mount effect: `refreshAccessToken().then((token) => { if (!token)
setState("unauthenticated") })`.  A rejected promise skips the `then`
continuation, so the state is left as it was. -/
def restoreOnMount (net : String → NetOutcome) (s : AuthS) : AuthS :=
  match refreshAccessToken net s with
  | (s', .returned none) => { s' with state := .unauthenticated }
  | (s', _) => s'

/-- `logout()`: clear the stored refresh token, drop the in-memory access
token, set state `unauthenticated`, and clear the armed timeout when the
ref holds one (the ref itself is not nulled by the source). -/
def logout (s : AuthS) : AuthS :=
  { s with
      storedRefreshToken := none,
      accessToken := none,
      state := .unauthenticated,
      liveTimers :=
        match s.refreshTimerRef with
        | some r => clearTimeout r s.liveTimers
        | none => s.liveTimers }

/-- Payload of an `AUTH_SUCCESS` message from the login dialog
(`accessToken` present, optional `refreshToken` and `expiresIn`). -/
structure AuthDialogMsg where
  accessToken : String
  refreshToken : Option String
  expiresIn : Option Int
deriving Repr, DecidableEq

/-- The `AUTH_SUCCESS` branch of the dialog message handler: set the
access token, set state `authenticated`, arm the scheduler with
`data.expiresIn ?? 300`, and persist `data.refreshToken` when present. -/
def loginAuthSuccess (data : AuthDialogMsg) (s : AuthS) : AuthS :=
  let s1 := { s with
                accessToken := some data.accessToken,
                state := .authenticated }
  let s2 := scheduleRefresh (data.expiresIn.getD 300) s1
  match data.refreshToken with
  | some rt => { s2 with storedRefreshToken := some rt }
  | none => s2

/-- Invariant kept by one `useAuth` instance's timer handling: every live
timeout is the one the ref points to, live ids and the ref are below the
allocation counter, and at most one timeout is live. -/
def TimerInv (s : AuthS) : Prop :=
  (∀ t ∈ s.liveTimers, s.refreshTimerRef = some t.1) ∧
  (∀ t ∈ s.liveTimers, t.1 < s.nextTimerId) ∧
  (match s.refreshTimerRef with
   | some r => r < s.nextTimerId
   | none => True) ∧
  s.liveTimers.length ≤ 1

theorem scheduleRefresh_liveTimers (e : Int) (s : AuthS) (h : TimerInv s) :
    (scheduleRefresh e s).liveTimers = [(s.nextTimerId, delayMs e)] := by
  unfold scheduleRefresh
  rcases href : s.refreshTimerRef with _ | r
  · have hnil : s.liveTimers = [] := by
      cases hl : s.liveTimers with
      | nil => rfl
      | cons a t =>
          have := h.1 a (hl ▸ List.mem_cons_self a t)
          rw [href] at this
          cases this
    simp [hnil]
  · have hnil : clearTimeout r s.liveTimers = [] := by
      unfold clearTimeout
      rw [List.filter_eq_nil_iff]
      intro t ht
      have := h.1 t ht
      rw [href] at this
      have ht1 : t.1 = r := by injection this with h1; exact h1.symm
      simp [ht1]
    simp [hnil]

theorem timerInv_scheduleRefresh (e : Int) (s : AuthS) (h : TimerInv s) :
    TimerInv (scheduleRefresh e s) := by
  have hl := scheduleRefresh_liveTimers e s h
  refine ⟨?_, ?_, ?_, ?_⟩
  · intro t ht
    rw [hl] at ht
    rw [List.mem_singleton.mp ht]
    rfl
  · intro t ht
    rw [hl] at ht
    rw [List.mem_singleton.mp ht]
    exact Nat.lt_succ_self _
  · exact Nat.lt_succ_self _
  · rw [hl]
    exact Nat.le_refl 1

/-- Fold a sequence of further `scheduleRefresh` calls over a state. -/
def foldSched (s : AuthS) (es : List Int) : AuthS :=
  es.foldl (fun st e => scheduleRefresh e st) s

theorem mem_scheduleRefresh_liveTimers (t : Nat × Int) (e : Int) (s : AuthS)
    (ht : t ∈ (scheduleRefresh e s).liveTimers) :
    t ∈ s.liveTimers ∨ t.1 = s.nextTimerId := by
  unfold scheduleRefresh at ht
  simp only [] at ht
  rcases List.mem_append.mp ht with hmem | hmem
  · left
    rcases hsplit : s.refreshTimerRef with _ | r <;> rw [hsplit] at hmem
    · exact hmem
    · exact (List.mem_filter.mp hmem).1
  · right
    rw [List.mem_singleton.mp hmem]

theorem notLive_foldSched (r : Nat) (es : List Int) :
    ∀ s : AuthS, r < s.nextTimerId → r ∉ s.liveTimers.map Prod.fst →
      r < (foldSched s es).nextTimerId ∧
      r ∉ (foldSched s es).liveTimers.map Prod.fst := by
  induction es with
  | nil => exact fun s h1 h2 => ⟨h1, h2⟩
  | cons e es ih =>
      intro s h1 h2
      apply ih
      · exact Nat.lt_succ_of_lt h1
      · intro hmem
        rcases List.mem_map.mp hmem with ⟨t, ht, hfst⟩
        rcases mem_scheduleRefresh_liveTimers t e s ht with hin | hnext
        · exact h2 (List.mem_map.mpr ⟨t, hin, hfst⟩)
        · rw [hfst] at hnext
          exact absurd hnext (Nat.ne_of_lt h1)

/-- C6: each `scheduleRefresh` call cancels the previously armed timeout
before arming a new one: the timer invariant is preserved, exactly one
timeout is live immediately after any call, and the superseded timeout's
id is never live again however many further `scheduleRefresh` calls
follow, so its callback never fires. -/
theorem scheduleRefresh_cancels_previous (s : AuthS) (e : Int)
    (es : List Int) (r : Nat)
    (h : TimerInv s) (href : s.refreshTimerRef = some r) :
    TimerInv (scheduleRefresh e s) ∧
    (scheduleRefresh e s).liveTimers = [(s.nextTimerId, delayMs e)] ∧
    r ∉ (foldSched (scheduleRefresh e s) es).liveTimers.map Prod.fst := by
  refine ⟨timerInv_scheduleRefresh e s h,
    scheduleRefresh_liveTimers e s h, ?_⟩
  have hr : r < s.nextTimerId := by
    have h3 := h.2.2.1
    rw [href] at h3
    exact h3
  refine (notLive_foldSched r es (scheduleRefresh e s) (Nat.lt_succ_of_lt hr)
    ?_).2
  rw [scheduleRefresh_liveTimers e s h]
  intro hmem
  rw [List.map_singleton, List.mem_singleton] at hmem
  exact Nat.ne_of_lt hr hmem

/-- Witness for C6: with timeout 0 armed, re-arming twice leaves one live
timeout and id 0 is no longer live. -/
theorem scheduleRefresh_cancels_previous_witness :
    TimerInv (scheduleRefresh 300
      ⟨.authenticated, some "at-1", some "rt-1", [(0, 270000)], some 0, 1⟩) ∧
    (scheduleRefresh 300
      ⟨.authenticated, some "at-1", some "rt-1", [(0, 270000)], some 0, 1⟩).liveTimers
      = [(1, delayMs 300)] ∧
    0 ∉ (foldSched (scheduleRefresh 300
      ⟨.authenticated, some "at-1", some "rt-1", [(0, 270000)], some 0, 1⟩)
        [60]).liveTimers.map Prod.fst :=
  scheduleRefresh_cancels_previous
    ⟨.authenticated, some "at-1", some "rt-1", [(0, 270000)], some 0, 1⟩
    300 [60] 0 (by unfold TimerInv; decide) rfl

/-- C5: `scheduleRefresh` arms a one-shot timeout whose delay in
milliseconds equals `1000 * max (lifetimeSeconds - 30) 10`, i.e.
`max (lifetimeSeconds - 30) 10` seconds (margin 30 s, floor 10 s); the
delay is always at least the 10-second floor, and for a 5-second lifetime
it is exactly the floor. -/
theorem scheduleRefresh_floor (expiresIn : Int) (s : AuthS) :
    delayMs expiresIn = 1000 * max (expiresIn - 30) 10 ∧
    10000 ≤ delayMs expiresIn ∧
    delayMs 5 = 10000 ∧
    (s.nextTimerId, delayMs expiresIn) ∈ (scheduleRefresh expiresIn s).liveTimers ∧
    (scheduleRefresh expiresIn s).refreshTimerRef = some s.nextTimerId := by
  refine ⟨?_, le_max_right _ _, ?_, ?_, rfl⟩
  · unfold delayMs
    rw [mul_comm (expiresIn - 30) 1000,
      show (10000 : Int) = 1000 * 10 by norm_num]
    exact (mul_max_of_nonneg _ _ (by norm_num)).symm
  · unfold delayMs
    rw [max_eq_right (by norm_num : ((5 : Int) - 30) * 1000 ≤ 10000)]
  · exact List.mem_append_right _ (List.mem_singleton_self _)

/-- Network that always answers with a non-ok response status. -/
def netNotOk : String → NetOutcome := fun _ => .notOk

/-- Network on which every fetch rejects (network unreachable). -/
def netReject : String → NetOutcome := fun _ => .netError

/-- Network that exchanges `rt-1` for `at-1` with rotated token `rt-2` and
a 300-second lifetime. -/
def netRotate : String → NetOutcome :=
  fun rt => if rt = "rt-1" then .ok ⟨"at-1", some "rt-2", some 300⟩ else .notOk

/-- Network that answers ok but omits both `refresh_token` and
`expires_in`. -/
def netNoRotate : String → NetOutcome := fun _ => .ok ⟨"at-1", none, none⟩

/-- Fresh mount state: restoring, no access token, stored token `rt-1`. -/
def s_restore : AuthS := ⟨.restoring, none, some "rt-1", [], none, 0⟩

/-- Mid-session state: authenticated with an armed refresh timeout. -/
def s_session : AuthS :=
  ⟨.authenticated, some "at-0", some "rt-1", [(0, 270000)], some 0, 1⟩

/-- C3 counterexample: when the fetch itself rejects (a network error),
`refreshAccessToken` does not clear the persisted renewal token — the
exception propagates before `clearRefreshToken()` is reached — and the
restore attempt leaves the state at `restoring`, not `unauthenticated`,
because the rejected promise skips the mount effect's `then`
continuation. -/
theorem refreshAccessToken_netError_counterexample :
    (refreshAccessToken netReject s_restore).1.storedRefreshToken = some "rt-1" ∧
    (refreshAccessToken netReject s_restore).2 = .threw ∧
    (restoreOnMount netReject s_restore).state = .restoring :=
  ⟨rfl, rfl, rfl⟩

/-- C3 (amended): when the token exchange resolves with a non-success
response, `refreshAccessToken` clears the persisted renewal token and
returns failure without itself forcing any session-state transition; such
a failure during the initial restore attempt drives the state to
`unauthenticated`, while an identical failure while `authenticated` leaves
the state `authenticated`.  A network error (rejected fetch) instead
propagates as an exception, leaving both the persisted token and the
session state unchanged. -/
theorem refreshAccessToken_failure (net : String → NetOutcome) (s : AuthS)
    (rt : String) (hrt : s.storedRefreshToken = some rt) :
    (net rt = .notOk →
      refreshAccessToken net s
        = ({ s with storedRefreshToken := none }, .returned none) ∧
      (s.state = .restoring →
        (restoreOnMount net s).state = .unauthenticated) ∧
      (s.state = .authenticated →
        (refreshAccessToken net s).1.state = .authenticated)) ∧
    (net rt = .netError →
      refreshAccessToken net s = (s, .threw) ∧
      restoreOnMount net s = s) := by
  constructor
  · intro hfail
    have hre : refreshAccessToken net s
        = ({ s with storedRefreshToken := none }, .returned none) := by
      simp only [refreshAccessToken, exchangeRefreshToken, hrt, hfail]
    refine ⟨hre, ?_, ?_⟩
    · intro _
      unfold restoreOnMount
      rw [hre]
    · intro hs
      rw [hre]
      exact hs
  · intro hthrow
    have hre : refreshAccessToken net s = (s, .threw) := by
      simp only [refreshAccessToken, exchangeRefreshToken, hrt, hthrow]
    refine ⟨hre, ?_⟩
    unfold restoreOnMount
    rw [hre]

/-- Witness for C3 (amended): a non-ok exchange during restore leads to
`unauthenticated` with the token cleared, while the same failure
mid-session leaves the state `authenticated`. -/
theorem refreshAccessToken_failure_witness :
    refreshAccessToken netNotOk s_restore
      = ({ s_restore with storedRefreshToken := none }, .returned none) ∧
    (restoreOnMount netNotOk s_restore).state = .unauthenticated ∧
    (refreshAccessToken netNotOk s_session).1.state = .authenticated := by
  have h1 := refreshAccessToken_failure netNotOk s_restore "rt-1" rfl
  have h2 := refreshAccessToken_failure netNotOk s_session "rt-1" rfl
  exact ⟨(h1.1 rfl).1, (h1.1 rfl).2.1 rfl, (h2.1 rfl).2.2 rfl⟩

/-- C4: on a successful exchange, `refreshAccessToken` returns the new
access token, stores it in memory, sets the state `authenticated`,
persists the rotated renewal token when present (otherwise the previously
persisted one is untouched), and re-arms the refresh scheduler for the
returned lifetime. -/
theorem refreshAccessToken_success (net : String → NetOutcome) (s : AuthS)
    (rt : String) (body : TokenResponse)
    (hrt : s.storedRefreshToken = some rt) (hok : net rt = .ok body) :
    (refreshAccessToken net s).2 = .returned (some body.access_token) ∧
    (refreshAccessToken net s).1.accessToken = some body.access_token ∧
    (refreshAccessToken net s).1.state = .authenticated ∧
    (refreshAccessToken net s).1.storedRefreshToken
      = (match body.refresh_token with
         | some nrt => some nrt
         | none => s.storedRefreshToken) ∧
    (refreshAccessToken net s).1.refreshTimerRef = some s.nextTimerId ∧
    (s.nextTimerId, delayMs (body.expires_in.getD 300))
      ∈ (refreshAccessToken net s).1.liveTimers := by
  have hx : exchangeRefreshToken net rt
      = .ok (some ⟨body.access_token, body.refresh_token,
          body.expires_in.getD 300⟩) := by
    simp only [exchangeRefreshToken, hok]
  have hre : refreshAccessToken net s
      = (scheduleRefresh (body.expires_in.getD 300)
          { s with accessToken := some body.access_token,
                   state := .authenticated,
                   storedRefreshToken :=
                     (match body.refresh_token with
                      | some nrt => some nrt
                      | none => some rt) },
         .returned (some body.access_token)) := by
    simp only [refreshAccessToken, hrt, hx]
    cases body.refresh_token <;> rfl
  rw [hre]
  refine ⟨rfl, rfl, rfl, ?_, rfl,
    List.mem_append_right _ (List.mem_singleton_self _)⟩
  cases body.refresh_token
  · exact hrt.symm
  · rfl

/-- Witness for C4: exchanging `rt-1` for
`(access_token at-1, refresh_token rt-2, expires_in 300)` yields state
`authenticated`, persisted token `rt-2`, and a timeout armed for
270000 ms = 270 s. -/
theorem refreshAccessToken_success_witness :
    (refreshAccessToken netRotate s_restore).2 = .returned (some "at-1") ∧
    (refreshAccessToken netRotate s_restore).1.state = .authenticated ∧
    (refreshAccessToken netRotate s_restore).1.storedRefreshToken
      = some "rt-2" ∧
    (0, 270000) ∈ (refreshAccessToken netRotate s_restore).1.liveTimers := by
  have h := refreshAccessToken_success netRotate s_restore "rt-1"
    ⟨"at-1", some "rt-2", some 300⟩ rfl rfl
  refine ⟨h.1, h.2.2.1, h.2.2.2.1, ?_⟩
  have h6 := h.2.2.2.2.2
  have he : ((0 : Nat), (270000 : Int))
      = (s_restore.nextTimerId,
          delayMs ((some (300 : Int)).getD 300)) := by decide
  rw [he]
  exact h6

/-- C9: with no stored refresh token, `refreshAccessToken` returns `null`
immediately: the state is returned untouched (store, session state and
access token included) and the result does not depend on the network at
all — no exchange is performed. -/
theorem refreshAccessToken_noStoredToken (netA netB : String → NetOutcome)
    (s : AuthS) (h : s.storedRefreshToken = none) :
    refreshAccessToken netA s = (s, .returned none) ∧
    refreshAccessToken netA s = refreshAccessToken netB s := by
  have h1 : ∀ n : String → NetOutcome,
      refreshAccessToken n s = (s, .returned none) := by
    intro n
    unfold refreshAccessToken
    rw [h]
  exact ⟨h1 netA, (h1 netA).trans (h1 netB).symm⟩

/-- Witness for C9: an unauthenticated state with an empty store is
returned unchanged, identically on a failing and on a rejecting
network. -/
theorem refreshAccessToken_noStoredToken_witness :
    refreshAccessToken netNotOk ⟨.unauthenticated, none, none, [], none, 0⟩
      = (⟨.unauthenticated, none, none, [], none, 0⟩, .returned none) ∧
    refreshAccessToken netNotOk ⟨.unauthenticated, none, none, [], none, 0⟩
      = refreshAccessToken netReject
          ⟨.unauthenticated, none, none, [], none, 0⟩ :=
  refreshAccessToken_noStoredToken netNotOk netReject _ rfl

/-- C7: `logout` clears the persisted renewal token, clears the in-memory
access token, sets the state `unauthenticated`, and cancels the armed
refresh timeout, from every state satisfying the timer invariant —
including states with no active session and no armed timeout, since it is
a total function. -/
theorem logout_clears (s : AuthS) (h : TimerInv s) :
    (logout s).state = .unauthenticated ∧
    (logout s).accessToken = none ∧
    (logout s).storedRefreshToken = none ∧
    (logout s).liveTimers = [] := by
  refine ⟨rfl, rfl, rfl, ?_⟩
  unfold logout
  rcases href : s.refreshTimerRef with _ | r
  · cases hl : s.liveTimers with
    | nil => simp [href, hl]
    | cons a t =>
        have := h.1 a (hl ▸ List.mem_cons_self a t)
        rw [href] at this
        cases this
  · have hnil : clearTimeout r s.liveTimers = [] := by
      unfold clearTimeout
      rw [List.filter_eq_nil_iff]
      intro t ht
      have := h.1 t ht
      rw [href] at this
      have ht1 : t.1 = r := by injection this with h1; exact h1.symm
      simp [ht1]
    simp [href, hnil]

/-- Witness for C7: logout applied mid-session with an armed timeout, and
with no session and no timeout at all; both end unauthenticated with
everything cleared. -/
theorem logout_clears_witness :
    ((logout s_session).state = .unauthenticated ∧
     (logout s_session).accessToken = none ∧
     (logout s_session).storedRefreshToken = none ∧
     (logout s_session).liveTimers = []) ∧
    ((logout ⟨.unauthenticated, none, none, [], none, 0⟩).state
        = .unauthenticated ∧
     (logout ⟨.unauthenticated, none, none, [], none, 0⟩).accessToken = none ∧
     (logout ⟨.unauthenticated, none, none, [], none, 0⟩).storedRefreshToken
        = none ∧
     (logout ⟨.unauthenticated, none, none, [], none, 0⟩).liveTimers = []) :=
  ⟨logout_clears s_session (by unfold TimerInv s_session; decide),
   logout_clears _ (by unfold TimerInv; decide)⟩

/-- C10: an ok exchange response lacking `expires_in` is treated as a
300-second lifetime, and one lacking `refresh_token` yields a pair with no
renewal token; likewise an `AUTH_SUCCESS` dialog outcome lacking
`expiresIn` arms the scheduler for a 300-second lifetime. -/
theorem exchange_defaults (net : String → NetOutcome) (s : AuthS)
    (rt a : String) (rto : Option String) (data : AuthDialogMsg)
    (hrt : s.storedRefreshToken = some rt)
    (hok : net rt = .ok ⟨a, rto, none⟩)
    (hde : data.expiresIn = none) :
    exchangeRefreshToken net rt = .ok (some ⟨a, rto, 300⟩) ∧
    (s.nextTimerId, delayMs 300) ∈ (refreshAccessToken net s).1.liveTimers ∧
    (s.nextTimerId, delayMs 300) ∈ (loginAuthSuccess data s).liveTimers := by
  have hx : exchangeRefreshToken net rt = .ok (some ⟨a, rto, 300⟩) := by
    simp only [exchangeRefreshToken, hok, Option.getD_none]
  refine ⟨hx, ?_, ?_⟩
  · simp only [refreshAccessToken, hrt, hx]
    cases rto <;>
      exact List.mem_append_right _ (List.mem_singleton_self _)
  · unfold loginAuthSuccess
    rw [hde]
    cases data.refreshToken <;>
      exact List.mem_append_right _ (List.mem_singleton_self _)

/-- Witness for C10: an ok response carrying only an access token defaults
to a 300-second lifetime and no rotated renewal token, for both the
exchange path and the dialog path. -/
theorem exchange_defaults_witness :
    exchangeRefreshToken netNoRotate "rt-1" = .ok (some ⟨"at-1", none, 300⟩) ∧
    (0, delayMs 300)
      ∈ (refreshAccessToken netNoRotate s_restore).1.liveTimers ∧
    (0, delayMs 300)
      ∈ (loginAuthSuccess ⟨"at-1", none, none⟩ s_restore).liveTimers :=
  exchange_defaults netNoRotate s_restore "rt-1" "at-1" none
    ⟨"at-1", none, none⟩ rfl rfl rfl

/-! ## Chat embed hook (`use-chat-embed.ts`) -/

/-- Outbound messages the hook pushes toward the embedded surface. -/
inductive EmbedSend
  | registerToolsMsg
  | setAuth (token : String)
deriving Repr, DecidableEq

/-- Host-side state of `useChatEmbed`: whether `READY` has fired, and
`accessTokenRef.current`, the latest access token seen by the hook
(`none` is JavaScript `null`). -/
structure EmbedS where
  ready : Bool
  accessTokenRef : Option String
deriving Repr, DecidableEq

/-- Events driving the hook: the embed's `READY` callback, and a change
of the `accessToken` prop, which re-runs the auth re-send effect. -/
inductive EmbedEvent
  | readyMsg
  | tokenChange (tok : Option String)
deriving Repr, DecidableEq

/-- One step of the hook.  `READY` registers the tool schemas and sends
the token only when `accessTokenRef.current` is truthy; a token change
updates the ref and the effect `if (accessToken && embedRef.current)
embedRef.current.setAuth(accessToken)` sends only when the new token is
truthy (`null` and the empty string are falsy). -/
def stepEmbed (s : EmbedS) (e : EmbedEvent) : EmbedS × List EmbedSend :=
  match e with
  | .readyMsg =>
      ({ s with ready := true },
        .registerToolsMsg ::
          (match s.accessTokenRef with
           | some t => if t = "" then [] else [.setAuth t]
           | none => []))
  | .tokenChange v =>
      ({ s with accessTokenRef := v },
        match v with
        | some t => if t = "" then [] else [.setAuth t]
        | none => [])

/-- Run the hook over a sequence of events, collecting every outbound
message in order. -/
def runEmbed (s : EmbedS) : List EmbedEvent → EmbedS × List EmbedSend
  | [] => (s, [])
  | e :: es =>
      let r1 := stepEmbed s e
      let r2 := runEmbed r1.1 es
      (r2.1, r1.2 ++ r2.2)

/-- C8 counterexample: starting before `READY` with token `at-1`, the
trace `READY` then token change to `null` performs one access-token
change after `READY` but emits no corresponding `setAuth` send — the only
`setAuth` is the one at `READY` — because the re-send effect is guarded
by the truthiness of the new token. -/
theorem setAuth_on_change_counterexample :
    runEmbed ⟨false, some "at-1"⟩ [.readyMsg, .tokenChange none]
      = (⟨true, none⟩, [.registerToolsMsg, .setAuth "at-1"]) := rfl

/-- C8 (amended): on `READY` the hook sends `setAuth` with the current
access token exactly when one is present (truthy); after that, every
change of the access token to a truthy value emits exactly one `setAuth`
carrying the new token, while a change to `null` emits nothing. -/
theorem setAuth_on_ready_and_truthy_change (s : EmbedS) (t u : String)
    (ht : t ≠ "") (hu : u ≠ "") :
    (stepEmbed { s with accessTokenRef := some u } .readyMsg).2
      = [.registerToolsMsg, .setAuth u] ∧
    (stepEmbed { s with accessTokenRef := none } .readyMsg).2
      = [.registerToolsMsg] ∧
    (stepEmbed s (.tokenChange (some t))).2 = [.setAuth t] ∧
    (stepEmbed s (.tokenChange none)).2 = [] ∧
    (stepEmbed s (.tokenChange (some t))).1.accessTokenRef = some t := by
  refine ⟨?_, rfl, ?_, rfl, rfl⟩
  · simp only [stepEmbed, if_neg hu]
  · simp only [stepEmbed, if_neg ht]

/-- Witness for C8 (amended): a silent renewal to `at-2` after `READY`
re-sends exactly that token. -/
theorem setAuth_on_ready_and_truthy_change_witness :
    (stepEmbed { (⟨true, some "at-1"⟩ : EmbedS) with
        accessTokenRef := some "at-1" } .readyMsg).2
      = [.registerToolsMsg, .setAuth "at-1"] ∧
    (stepEmbed { (⟨true, some "at-1"⟩ : EmbedS) with
        accessTokenRef := none } .readyMsg).2
      = [.registerToolsMsg] ∧
    (stepEmbed ⟨true, some "at-1"⟩ (.tokenChange (some "at-2"))).2
      = [.setAuth "at-2"] ∧
    (stepEmbed ⟨true, some "at-1"⟩ (.tokenChange none)).2 = [] ∧
    (stepEmbed ⟨true, some "at-1"⟩
        (.tokenChange (some "at-2"))).1.accessTokenRef = some "at-2" :=
  setAuth_on_ready_and_truthy_change ⟨true, some "at-1"⟩ "at-2" "at-1"
    (by decide) (by decide)

end UsableExcel
